import Mathlib

/-!
Verification development for the gridstats backend.

Shallow embedding of the result-reconciliation resolver
(`backend/app/services/f1_utils.py`), the season aggregation pipeline and
tiered cache (`backend/app/routers/compare.py`), and the persisted season
store (`backend/app/services/cache_utils.py`).

Conventions of the embedding:
* a pandas `DataFrame` becomes a `List Row`; a missing value (NaN / None)
  in a numeric or string column becomes `none`;
* the frames handed to `load_results_strict` are the post-normalisation
  frames (after `_to_numeric` and `_norm_abbreviation`, which ensure the
  `Abbreviation` column exists and `Position` / `Points` are numeric);
* Python dicts become association lists preserving insertion order;
* the two network adapters and the lap store are parameters: the resolver
  and aggregator are modelled as pure functions of the fetched tables.
-/

set_option maxHeartbeats 1000000

/-! ## Association lists (Python `dict` / `defaultdict`) -/

def alist_get {κ α : Type} [DecidableEq κ] : List (κ × α) → κ → Option α
  | [], _ => none
  | (k, v) :: rest, key => if k = key then some v else alist_get rest key

def alist_put {κ α : Type} [DecidableEq κ] : List (κ × α) → κ → α → List (κ × α)
  | [], key, v => [(key, v)]
  | (k, w) :: rest, key, v =>
    if k = key then (k, v) :: rest else (k, w) :: alist_put rest key v

def alist_remove {κ α : Type} [DecidableEq κ] : List (κ × α) → κ → List (κ × α)
  | [], _ => []
  | (k, v) :: rest, key => if k = key then rest else (k, v) :: alist_remove rest key

/-- Python `d.setdefault(key, dflt)` followed by in-place mutation `f` of the
entry: a present entry is updated in place, an absent key is appended at the
end (dict insertion order) with `f` applied to the default. -/
def alist_upsert {κ α : Type} [DecidableEq κ] :
    List (κ × α) → κ → α → (α → α) → List (κ × α)
  | [], key, dflt, f => [(key, f dflt)]
  | (k, v) :: rest, key, dflt, f =>
    if k = key then (k, f v) :: rest else (k, v) :: alist_upsert rest key dflt f

theorem alist_get_upsert_same {κ α : Type} [DecidableEq κ]
    (l : List (κ × α)) (key : κ) (dflt : α) (f : α → α) :
    alist_get (alist_upsert l key dflt f) key
      = some (f ((alist_get l key).getD dflt)) := by
  induction l with
  | nil => simp [alist_get, alist_upsert]
  | cons hd tl ih =>
    obtain ⟨k, v⟩ := hd
    by_cases hk : k = key
    · subst hk; simp [alist_get, alist_upsert]
    · simp [alist_get, alist_upsert, hk, ih]

theorem alist_upsert_inv {κ α : Type} [DecidableEq κ]
    (P : α → Prop) (l : List (κ × α)) (key : κ) (dflt : α) (f : α → α)
    (hl : ∀ kv ∈ l, P kv.2) (hdflt : P (f dflt)) (hf : ∀ a, P a → P (f a)) :
    ∀ kv ∈ alist_upsert l key dflt f, P kv.2 := by
  induction l with
  | nil =>
    intro kv hkv
    simp [alist_upsert] at hkv
    simp [hkv, hdflt]
  | cons hd tl ih =>
    obtain ⟨k, v⟩ := hd
    intro kv hkv
    by_cases hk : k = key
    · subst hk
      simp [alist_upsert] at hkv
      rcases hkv with h | h
      · have hv : P v := hl (k, v) (by simp)
        simp [h]; exact hf v hv
      · exact hl kv (by simp [h])
    · simp [alist_upsert, hk] at hkv
      rcases hkv with h | h
      · exact hl kv (by simp [h])
      · exact ih (fun kv hkv => hl kv (by simp [hkv])) kv h

/-! ## Stable insertion sort (pandas `sort_values`, `numpy.lexsort` is stable) -/

def ins_stable {α : Type} (le : α → α → Bool) (x : α) : List α → List α
  | [] => [x]
  | y :: ys => if le y x then y :: ins_stable le x ys else x :: y :: ys

def stable_sort {α : Type} (le : α → α → Bool) (xs : List α) : List α :=
  xs.foldl (fun acc x => ins_stable le x acc) []

/-! ## Python string primitives

The status strings handled by the backend are ASCII, so `str.lower` and
`str.strip` are modelled on the character list of the string. -/

def ascii_lower_char (c : Char) : Char :=
  if c = 'A' then 'a' else if c = 'B' then 'b' else if c = 'C' then 'c'
  else if c = 'D' then 'd' else if c = 'E' then 'e' else if c = 'F' then 'f'
  else if c = 'G' then 'g' else if c = 'H' then 'h' else if c = 'I' then 'i'
  else if c = 'J' then 'j' else if c = 'K' then 'k' else if c = 'L' then 'l'
  else if c = 'M' then 'm' else if c = 'N' then 'n' else if c = 'O' then 'o'
  else if c = 'P' then 'p' else if c = 'Q' then 'q' else if c = 'R' then 'r'
  else if c = 'S' then 's' else if c = 'T' then 't' else if c = 'U' then 'u'
  else if c = 'V' then 'v' else if c = 'W' then 'w' else if c = 'X' then 'x'
  else if c = 'Y' then 'y' else if c = 'Z' then 'z' else c

def ascii_upper_char (c : Char) : Char :=
  if c = 'a' then 'A' else if c = 'b' then 'B' else if c = 'c' then 'C'
  else if c = 'd' then 'D' else if c = 'e' then 'E' else if c = 'f' then 'F'
  else if c = 'g' then 'G' else if c = 'h' then 'H' else if c = 'i' then 'I'
  else if c = 'j' then 'J' else if c = 'k' then 'K' else if c = 'l' then 'L'
  else if c = 'm' then 'M' else if c = 'n' then 'N' else if c = 'o' then 'O'
  else if c = 'p' then 'P' else if c = 'q' then 'Q' else if c = 'r' then 'R'
  else if c = 's' then 'S' else if c = 't' then 'T' else if c = 'u' then 'U'
  else if c = 'v' then 'V' else if c = 'w' then 'W' else if c = 'x' then 'X'
  else if c = 'y' then 'Y' else if c = 'z' then 'Z' else c

def is_space_char (c : Char) : Bool :=
  c = ' ' || c = '\t' || c = '\n' || c = '\r'

def py_lower (s : String) : String := String.mk (s.data.map ascii_lower_char)

def py_upper (s : String) : String := String.mk (s.data.map ascii_upper_char)

def py_strip (s : String) : String :=
  String.mk (((s.data.dropWhile is_space_char).reverse.dropWhile is_space_char).reverse)

def py_len (s : String) : Nat := s.data.length

def starts_with_char (c : Char) (s : String) : Bool :=
  match s.data with
  | c0 :: _ => c0 = c
  | [] => false

/-! ## Finish-status classification (`f1_utils._build_dnf_maps`, lines 116-137)

When the session driver info carries no explicit `dnf` flag, the status text
decides: `status = str(row.get("Status") or "").strip().lower()`; an empty
status is not a DNF; a status starting with `"+"` or equal to `"finished"` /
`"lapped"` is a finish; `"disqualified"`, `"did not start"`, `"excluded"`
are explicitly not DNFs; everything else (including `"not classified"`) is. -/

def dnf_from_status (status : String) : Bool :=
  let s := py_lower (py_strip status)
  if s = "" then false
  else
    let finish_like := starts_with_char '+' s || s = "finished" || s = "lapped"
    let excluded := s = "disqualified" || s = "did not start" || s = "excluded"
    !finish_like && !excluded

/-- `dnf_val` resolution: an explicit flag from the session driver info wins,
otherwise the status text is classified (missing status behaves as `""`). -/
def dnf_value (explicit_flag : Option Bool) (status : Option String) : Bool :=
  match explicit_flag with
  | some b => b
  | none => dnf_from_status (status.getD "")

/-! ## Stampede guard (`compare.py` lines 290-292, 369-390, 626)

`_BUILDING` is a bare module-level `set[int]` with no lock.  A request for a
cold year runs, in order: the membership test `year in _BUILDING` (line 370),
then — after a disk-cache read and a network schedule fetch — the insert
`_BUILDING.add(year)` (line 390), then the season build loop.  Each of those
three is one step of the model below; two threads request the same year and
a schedule picks which thread steps next.  `builds` counts invocations of
the build logic. -/

inductive BuildPc where
  | check
  | insert
  | build
  | done
deriving DecidableEq, Repr

structure StampedeState where
  building : Bool
  builds : Nat
  pc0 : BuildPc
  pc1 : BuildPc
deriving DecidableEq, Repr

def thread_step (building : Bool) (builds : Nat) (pc : BuildPc) :
    Bool × Nat × BuildPc :=
  match pc with
  | .check => if building then (building, builds, .done) else (building, builds, .insert)
  | .insert => (true, builds, .build)
  | .build => (building, builds + 1, .done)
  | .done => (building, builds, .done)

def stampede_step (s : StampedeState) (tid : Bool) : StampedeState :=
  if tid then
    let (b, n, pc) := thread_step s.building s.builds s.pc1
    { s with building := b, builds := n, pc1 := pc }
  else
    let (b, n, pc) := thread_step s.building s.builds s.pc0
    { s with building := b, builds := n, pc0 := pc }

def stampede_run (sched : List Bool) : StampedeState :=
  sched.foldl stampede_step ⟨false, 0, .check, .check⟩

/-! ## Tabular result rows

One row of a normalised results `DataFrame`.  `none` models NaN / missing;
`Position`, `Points` and `GridPosition` have been through `pd.to_numeric`
(`errors="coerce"`), so they are numeric-or-NaN. -/

structure Row where
  abbr : Option String := none
  driver_number : Option Nat := none
  position : Option Rat := none
  points : Option Rat := none
  status : Option String := none
  grid_position : Option Rat := none
  team_name : Option String := none
  constructor_name : Option String := none
  team_color : Option String := none
  full_name : Option String := none
  broadcast_name : Option String := none
  driver_col : Option String := none
  dnf : Option Bool := none
deriving DecidableEq, Repr

/-- `pd.to_numeric(df["Points"], errors="coerce").fillna(0).sum()`. -/
def sum_points (df : List Row) : Rat := df.foldl (fun s r => s + r.points.getD 0) 0

/-- `has_points` from `load_results_strict` (line 184): non-empty and a
strictly positive total of the Points column. -/
def has_points : Option (List Row) → Bool
  | none => false
  | some df => !df.isEmpty && decide (0 < sum_points df)

/-- `has_positions` from `load_results_strict` (line 187): non-empty and at
least one numeric Position entry. -/
def has_positions : Option (List Row) → Bool
  | none => false
  | some df => !df.isEmpty && df.any (fun r => r.position.isSome)

/-! ## Enrichment (`f1_utils._enrich_from_source`, lines 57-95)

Left-merge on `Abbreviation` against the source with duplicate source keys
dropped (first occurrence kept), then `combine_first` per metadata column:
a present value is never overwritten, a missing one is filled from the
matching source row.  `Points` and `Position` are not in `desired_cols`
and are never touched. -/

def enrich_row (b : Row) : Option Row → Row
  | none => b
  | some s =>
    { b with
      status := b.status.orElse (fun _ => s.status),
      grid_position := b.grid_position.orElse (fun _ => s.grid_position),
      team_name := b.team_name.orElse (fun _ => s.team_name),
      constructor_name := b.constructor_name.orElse (fun _ => s.constructor_name),
      team_color := b.team_color.orElse (fun _ => s.team_color),
      full_name := b.full_name.orElse (fun _ => s.full_name),
      broadcast_name := b.broadcast_name.orElse (fun _ => s.broadcast_name),
      driver_col := b.driver_col.orElse (fun _ => s.driver_col),
      driver_number := b.driver_number.orElse (fun _ => s.driver_number) }

def enrich_from_source (base : List Row) : Option (List Row) → List Row
  | none => base
  | some src =>
    if src.isEmpty then base
    else base.map (fun b => enrich_row b (src.find? (fun s => s.abbr == b.abbr)))

/-! ## DNF maps and column (`f1_utils`, lines 97-150) -/

/-- Python `a or b` on optional strings: empty and missing are both falsy. -/
def py_or_str (a b : Option String) : Option String :=
  match a with
  | some s => if s = "" then b else some s
  | none => b

/-- `_build_dnf_maps`: one pass over the session result rows, each paired
with the optional explicit `dnf` flag from `ses.get_driver`; later rows
overwrite earlier map entries, exactly like repeated dict assignment. -/
def build_dnf_maps (res : List (Row × Option Bool)) :
    List (String × Bool) × List (String × Bool) :=
  res.foldl
    (fun maps rb =>
      let r := rb.1
      let dnf_val := dnf_value rb.2 r.status
      let maps1 :=
        match py_or_str r.abbr r.driver_col with
        | some a => if a = "" then maps.1 else alist_put maps.1 a dnf_val
        | none => maps.1
      let maps2 :=
        match r.driver_number with
        | some n => alist_put maps.2 (toString n) dnf_val
        | none => maps.2
      (maps1, maps2))
    ([], [])

/-- `_apply_dnf_column`: key the DNF flag by Abbreviation when that column
carries values, else by DriverNumber, else default `False`. -/
def apply_dnf_column (df : List Row) (by_abbr by_num : List (String × Bool)) :
    List Row :=
  if df.any (fun r => r.abbr.isSome) then
    df.map (fun r => { r with dnf := some ((r.abbr.bind (alist_get by_abbr)).getD false) })
  else if df.any (fun r => r.driver_number.isSome) then
    df.map (fun r =>
      { r with dnf := some ((r.driver_number.bind (fun n => alist_get by_num (toString n))).getD false) })
  else
    df.map (fun r => { r with dnf := some false })

/-! ## Lap-derived provisional classification (`load_results_strict`, 226-248) -/

structure Lap where
  driver : String
  lap_number : Nat
  position : Option Rat := none
deriving DecidableEq, Repr

def str_le (a b : String) : Bool := decide (a < b) || a == b

/-- `laps.sort_values(["Driver","LapNumber"])` then `groupby("Driver").last()`:
group keys in ascending driver order; per column the last non-null value of
the group (`LapNumber` is total, `Position` may be NaN on late laps). -/
def last_laps (laps : List Lap) : List Lap :=
  let drivers := stable_sort str_le ((laps.map (fun l => l.driver)).dedup)
  drivers.map (fun d =>
    let g := stable_sort (fun a b => decide (a.lap_number ≤ b.lap_number))
      (laps.filter (fun l => l.driver == d))
    { driver := d,
      lap_number := g.foldl (fun _ l => l.lap_number) 0,
      position := g.foldl (fun acc l => match l.position with
        | some p => some p
        | none => acc) none })

/-- Sort order of line 235: `PositionNum` ascending with NaN last, then
`LapNumber` descending; `sort_values` on multiple keys is stable. -/
def derived_le (a b : Lap) : Bool :=
  match a.position, b.position with
  | none, none => decide (b.lap_number ≤ a.lap_number)
  | none, some _ => false
  | some _, none => true
  | some pa, some pb =>
    decide (pa < pb) || (decide (pa = pb) && decide (b.lap_number ≤ a.lap_number))

/-- The classic top-10 points schedule of line 237 (`fillna(0)` beyond P10). -/
def top10_points (pos : Nat) : Rat :=
  if pos = 1 then 25 else if pos = 2 then 18 else if pos = 3 then 15
  else if pos = 4 then 12 else if pos = 5 then 10 else if pos = 6 then 8
  else if pos = 7 then 6 else if pos = 8 then 4 else if pos = 9 then 2
  else if pos = 10 then 1 else 0

/-- Lines 232-243: provisional classification from raw laps. -/
def derived_rows (laps : List Lap) : List Row :=
  let ordered := stable_sort derived_le (last_laps laps)
  ordered.enum.map (fun p =>
    { abbr := some p.2.driver,
      position := some ((p.1 + 1 : Nat) : Rat),
      points := some (top10_points (p.1 + 1)) })

/-! ## The Result Reconciler (`f1_utils.load_results_strict`, lines 152-248)

Parameters: the two already-normalised adapter tables (`none` models a fetch
failure / absent results), the raw lap table of the fallback session, and
the DNF maps built from the primary session. -/

/-- Ergast points merged into the primary rows (lines 204-223): pandas
left-merge duplicates a base row per matching source row, missing points are
filled from the match and finally `fillna(0)`. -/
def merge_points_rows (b : Row) (ms : List Row) : List Row :=
  match ms with
  | [] => [{ b with points := some (b.points.getD 0) }]
  | _ => ms.map (fun s =>
      { b with points := some ((b.points.orElse (fun _ => s.points)).getD 0) })

def load_results_strict (f1 er : Option (List Row)) (laps : List Lap)
    (dnf_by_abbr dnf_by_num : List (String × Bool)) : String × List Row :=
  if has_points f1 = true then
    ("fastf1", apply_dnf_column (enrich_from_source (f1.getD []) er) dnf_by_abbr dnf_by_num)
  else if has_points er = true then
    ("ergast", apply_dnf_column (enrich_from_source (er.getD []) f1) dnf_by_abbr dnf_by_num)
  else if (has_positions f1 && er.isSome) = true then
    let base := f1.getD []
    let ertab := er.getD []
    let merged := base.flatMap (fun b => merge_points_rows b (ertab.filter (fun s => s.abbr == b.abbr)))
    let merged := enrich_from_source merged er
    let merged := enrich_from_source merged f1
    ("f1+ergast_points", apply_dnf_column merged dnf_by_abbr dnf_by_num)
  else if laps.isEmpty then
    ("derived_empty", [])
  else
    let df := derived_rows laps
    let df := enrich_from_source df er
    let df := enrich_from_source df f1
    ("derived", apply_dnf_column df dnf_by_abbr dnf_by_num)

/-! ## Points are preserved by enrichment and the DNF column -/

theorem enrich_row_points (b : Row) (o : Option Row) :
    (enrich_row b o).points = b.points := by
  cases o <;> rfl

theorem points_map_of_pointwise {f : Row → Row}
    (h : ∀ r, (f r).points = r.points) (l : List Row) :
    (l.map f).map (fun r => r.points) = l.map (fun r => r.points) := by
  induction l with
  | nil => rfl
  | cons x xs ih => simp [h, ih]

theorem enrich_points_map (base : List Row) (src : Option (List Row)) :
    (enrich_from_source base src).map (fun r => r.points)
      = base.map (fun r => r.points) := by
  cases src with
  | none => rfl
  | some s =>
    simp only [enrich_from_source]
    split
    · rfl
    · exact points_map_of_pointwise (fun b => enrich_row_points b _) base

theorem apply_dnf_points_map (df : List Row) (a n : List (String × Bool)) :
    (apply_dnf_column df a n).map (fun r => r.points)
      = df.map (fun r => r.points) := by
  unfold apply_dnf_column
  split
  · apply points_map_of_pointwise; intro r; rfl
  · split
    · apply points_map_of_pointwise; intro r; rfl
    · apply points_map_of_pointwise; intro r; rfl

theorem position_map_of_pointwise {f : Row → Row}
    (h : ∀ r, (f r).position = r.position) (l : List Row) :
    (l.map f).map (fun r => r.position) = l.map (fun r => r.position) := by
  induction l with
  | nil => rfl
  | cons x xs ih => simp [h, ih]

theorem enrich_row_position (b : Row) (o : Option Row) :
    (enrich_row b o).position = b.position := by
  cases o <;> rfl

theorem enrich_position_map (base : List Row) (src : Option (List Row)) :
    (enrich_from_source base src).map (fun r => r.position)
      = base.map (fun r => r.position) := by
  cases src with
  | none => rfl
  | some s =>
    simp only [enrich_from_source]
    split
    · rfl
    · exact position_map_of_pointwise (fun b => enrich_row_position b _) base

theorem apply_dnf_position_map (df : List Row) (a n : List (String × Bool)) :
    (apply_dnf_column df a n).map (fun r => r.position)
      = df.map (fun r => r.position) := by
  unfold apply_dnf_column
  split
  · apply position_map_of_pointwise; intro r; rfl
  · split
    · apply position_map_of_pointwise; intro r; rfl
    · apply position_map_of_pointwise; intro r; rfl

/-! ## The top-10 schedule is antitone -/

theorem top10_zero (p : Nat) (h : 11 ≤ p) : top10_points p = 0 := by
  unfold top10_points
  split_ifs <;> first | rfl | omega

theorem top10_step (p : Nat) : top10_points (p + 2) ≤ top10_points (p + 1) := by
  rcases Nat.lt_or_ge p 10 with h | h
  · interval_cases p <;> norm_num [top10_points]
  · rw [top10_zero (p + 1) (by omega), top10_zero (p + 2) (by omega)]

theorem top10_antitone {i j : Nat} (h : i ≤ j) :
    top10_points (j + 1) ≤ top10_points (i + 1) := by
  induction j, h using Nat.le_induction with
  | base => exact le_refl _
  | succ n hn ih => exact le_trans (top10_step n) ih

theorem pairwise_top10 (n : Nat) :
    List.Pairwise (fun a b => b ≤ a)
      ((List.range n).map (fun i => top10_points (i + 1))) := by
  rw [List.pairwise_map]
  exact (List.pairwise_lt_range n).imp
    (fun h => top10_antitone (Nat.le_of_lt h))

theorem derived_rows_points (laps : List Lap) :
    (derived_rows laps).map (fun r => r.points)
      = (List.range (stable_sort derived_le (last_laps laps)).length).map
          (fun i => some (top10_points (i + 1))) := by
  unfold derived_rows
  rw [List.map_map]
  have h1 : ((stable_sort derived_le (last_laps laps)).enum.map
      (fun p => some (top10_points (p.1 + 1))))
      = ((stable_sort derived_le (last_laps laps)).enum.map Prod.fst).map
          (fun i => some (top10_points (i + 1))) := by
    rw [List.map_map]; rfl
  rw [show ((fun r => r.points) ∘ fun p : Nat × Lap =>
      ({ abbr := some p.2.driver, position := some ((p.1 + 1 : Nat) : Rat),
         points := some (top10_points (p.1 + 1)) } : Row))
      = fun p : Nat × Lap => some (top10_points (p.1 + 1)) from rfl]
  rw [h1, List.enum_map_fst]

/-! ## Claim theorems (first group) -/

/-- Claim C7: a result row's DNF classification (status fallback of
`_build_dnf_maps`) is true exactly when the normalised status text is
present, does not start with a `"+"` lapped marker, is not `"finished"` or
`"lapped"`, and is not one of disqualified / did not start / excluded; in
particular those three are classified non-DNF, and an empty status is
non-DNF. -/
theorem c7_dnf_classification :
    (∀ status : String,
      dnf_from_status status = true ↔
        (let s := py_lower (py_strip status)
         s ≠ "" ∧ starts_with_char '+' s = false ∧ s ≠ "finished" ∧ s ≠ "lapped" ∧
         s ≠ "disqualified" ∧ s ≠ "did not start" ∧ s ≠ "excluded"))
    ∧ dnf_from_status "Disqualified" = false
    ∧ dnf_from_status "Did not start" = false
    ∧ dnf_from_status "Excluded" = false
    ∧ dnf_from_status "" = false
    ∧ dnf_from_status "+1 Lap" = false
    ∧ dnf_from_status "Engine" = true
    ∧ dnf_from_status "Not Classified" = true
    ∧ (∀ st : Option String, dnf_value none st = dnf_from_status (st.getD "")) := by
  refine ⟨?_, by decide, by decide, by decide, by decide, by decide, by decide, by decide, ?_⟩
  · intro status
    simp only [dnf_from_status]
    by_cases h0 : py_lower (py_strip status) = ""
    · simp [h0]
    · simp only [h0, if_neg h0]
      constructor
      · intro h
        rcases Bool.and_eq_true .. |>.mp h with ⟨h1, h2⟩
        simp only [Bool.not_eq_true', Bool.or_eq_false_iff] at h1 h2
        obtain ⟨⟨ha, hb⟩, hc⟩ := h1
        obtain ⟨⟨hd, he⟩, hf⟩ := h2
        refine ⟨h0, ?_, ?_, ?_, ?_, ?_, ?_⟩ <;>
          simp_all [decide_eq_false_iff_not]
      · rintro ⟨-, h1, h2, h3, h4, h5, h6⟩
        simp [h1, h2, h3, h4, h5, h6]
  · intro st
    rfl

/-! ## Season aggregation (`compare.py load_season`, lines 351-626)

The endpoint's build loop as a pure function of the fetched inputs: one
`RoundInput` per schedule row, carrying the reconciler outcome (`none` for a
raised exception), the driver metadata of `_driver_metadata`, the qualifying
fallback grid of `_fallback_grid_positions`, and the raw sprint-session
results (`none` when both sprint backends failed).  The model fixes the
environment defaults: sprint points enabled, no debug driver. -/

def SCHEMA_VERSION : Int := 10

/-- `_normalize_hex_color` (lines 78-90). -/
def dup_chars : List Char → List Char
  | [] => []
  | c :: rest => c :: c :: dup_chars rest

def normalize_hex_color : Option String → Option String
  | none => none
  | some v =>
    let s := py_strip v
    if s = "" then none
    else
      let s1 := if starts_with_char '#' s then s else String.mk ('#' :: s.data)
      let s2 := if py_len s1 = 4 then String.mk ('#' :: dup_chars (s1.data.drop 1)) else s1
      if py_len s2 = 7 then some (py_upper s2) else none

/-- Python's `a or b or ... or dflt` over strings, where empty is falsy. -/
def first_nonempty : List String → String → String
  | [], dflt => dflt
  | s :: rest, dflt => if s = "" then first_nonempty rest dflt else s

/-- Python `int()` on a non-NaN float: truncation toward zero. -/
def py_int (q : Rat) : Int := if q < 0 then -((-q).floor) else q.floor

structure MetaEntry where
  full_name : String := ""
  team : String := ""
  team_color : String := ""
  grid_position : Option Int := none
deriving DecidableEq, Repr

structure RoundInput where
  rnd : Int
  race : Option (List Row)
  metadata : List (String × MetaEntry) := []
  fallback_grid : List (String × Int) := []
  sprint : Option (List Row) := none
deriving DecidableEq, Repr

/-- One entry of `results_by_driver`. -/
structure DriverEntry where
  code : String
  full_name : String := ""
  team : String := ""
  team_color : String := ""
  grid_position : Option Int := none
  points : Rat := 0
  wins : Nat := 0
  podiums : Nat := 0
  dnfs : Nat := 0
  positions : List Int := []
  poles : Nat := 0
  pole_rounds : List Int := []
deriving DecidableEq, Repr

structure AccState where
  results : List (String × DriverEntry) := []
  pole_counts : List (String × Nat) := []
  pole_rounds : List (String × List Int) := []
  sprint_rounds : List Int := []
deriving DecidableEq, Repr

/-! ### Sprint results (`_load_sprint_results`, lines 213-248) -/

/-- The fallback sprint schedules selected by the year threshold. -/
def sprint_map (year : Int) (p : Rat) : Rat :=
  if year ≤ 2021 then
    if p = 1 then 3 else if p = 2 then 2 else if p = 3 then 1 else 0
  else
    if p = 1 then 8 else if p = 2 then 7 else if p = 3 then 6 else if p = 4 then 5
    else if p = 5 then 4 else if p = 6 then 3 else if p = 7 then 2 else if p = 8 then 1
    else 0

/-- Returns each sprint row paired with its `__SPTS__` value: the fallback
schedule applied to the position when the sprint source itself reports a
non-positive Points total (and a Position column carries values), otherwise
the source's own points. -/
def load_sprint_results (year : Int) (raw : Option (List Row)) :
    Option (List (Row × Rat)) :=
  match raw with
  | none => none
  | some rows0 =>
    if rows0.isEmpty then none
    else
      let rows := rows0.map (fun r => { r with points := some (r.points.getD 0) })
      let total := sum_points rows
      let has_pos_col := rows.any (fun r => r.position.isSome)
      if (decide (total ≤ 0) && has_pos_col) = true then
        some (rows.map (fun r =>
          (r, match r.position with
              | some p => sprint_map year p
              | none => 0)))
      else
        some (rows.map (fun r => (r, r.points.getD 0)))

/-! ### Applying sprint points (`_apply_sprint_points`, lines 159-207) -/

def sprint_default_entry (code : String) (r : Row) : DriverEntry :=
  { code := code,
    full_name := first_nonempty
      [r.full_name.getD "", r.broadcast_name.getD "", r.driver_col.getD ""] code,
    team := first_nonempty [r.team_name.getD "", r.constructor_name.getD ""] "",
    team_color := (normalize_hex_color r.team_color).getD "" }

/-- The in-place mutation of one accumulator entry for one sprint row: only
names / team / colour may be filled in, and the sprint points are added;
wins, podiums, dnfs and recorded positions are untouched. -/
def sprint_row_update (code : String) (r : Row) (pts : Rat) (d : DriverEntry) :
    DriverEntry :=
  let d1 := { d with code := code }
  let d2 := if py_len d1.full_name ≤ 3 then
      { d1 with full_name :=
          (first_nonempty
            [r.full_name.getD "", r.broadcast_name.getD "", r.driver_col.getD ""] code) }
    else d1
  let d3 := if d2.team = "" then
      { d2 with team := first_nonempty [r.team_name.getD "", r.constructor_name.getD ""] "" }
    else d2
  let d4 := if d3.team_color = "" then
      { d3 with team_color := (normalize_hex_color r.team_color).getD "" }
    else d3
  { d4 with points := d4.points + pts }

def apply_sprint_row (num_to_abbr : List (String × String))
    (acc : List (String × DriverEntry)) (rp : Row × Rat) :
    List (String × DriverEntry) :=
  let r := rp.1
  let pts := rp.2
  if pts ≤ 0 then acc
  else
    let code0 : Option String :=
      match r.abbr with
      | some c => if c = "" then none else some c
      | none => none
    let code1 : Option String :=
      match code0 with
      | some c => some c
      | none =>
        if num_to_abbr.isEmpty then none
        else r.driver_number.bind (fun n => alist_get num_to_abbr (toString n))
    match code1 with
    | none => acc
    | some code =>
      if code = "" then acc
      else alist_upsert acc code (sprint_default_entry code r)
        (sprint_row_update code r pts)

def apply_sprint_points (sres : List (Row × Rat))
    (acc : List (String × DriverEntry)) (num_to_abbr : List (String × String)) :
    List (String × DriverEntry) :=
  sres.foldl (apply_sprint_row num_to_abbr) acc

/-! ### Folding one race row (lines 445-508) -/

def race_default_entry (code fn team : String) (tc : Option String)
    (gn : Option Int) : DriverEntry :=
  { code := code, full_name := fn, team := team, team_color := tc.getD "",
    grid_position := gn }

/-- The win / podium / positions bookkeeping of lines 487-494: only a row
with a numeric finishing position contributes; position 1 increments wins
and podiums, position ≤ 3 increments podiums. -/
def position_fold (pos : Option Rat) (d : DriverEntry) : DriverEntry :=
  match pos with
  | none => d
  | some p =>
    let ipos := py_int p
    let d1 := { d with positions := d.positions ++ [ipos] }
    let d2 := if ipos = 1 then { d1 with wins := d1.wins + 1 } else d1
    if ipos ≤ 3 then { d2 with podiums := d2.podiums + 1 } else d2

def race_row_update (code fn team : String) (tc : Option String)
    (gn : Option Int) (r : Row) (d : DriverEntry) : DriverEntry :=
  let new_tc := match tc with | some c => c | none => d.team_color
  let new_gn := match gn with | some g => some g | none => d.grid_position
  let d1 := { d with code := code, full_name := fn, team := team, team_color := new_tc, grid_position := new_gn, points := d.points + r.points.getD 0 }
  let d2 := position_fold r.position d1
  if r.dnf = some true then { d2 with dnfs := d2.dnfs + 1 } else d2

def process_race_row (metadata : List (String × MetaEntry))
    (acc : List (String × DriverEntry)) (r : Row) :
    List (String × DriverEntry) :=
  match r.abbr with
  | none => acc
  | some code =>
    if code = "" then acc
    else
      let me := (alist_get metadata code).getD {}
      let fn := first_nonempty
        [me.full_name, r.full_name.getD "", r.broadcast_name.getD "", r.driver_col.getD ""]
        code
      let team := first_nonempty [me.team, r.team_name.getD "", r.constructor_name.getD ""] ""
      let tc : Option String :=
        if me.team_color ≠ "" then some me.team_color else normalize_hex_color r.team_color
      let gn : Option Int := me.grid_position
      alist_upsert acc code (race_default_entry code fn team tc gn)
        (race_row_update code fn team tc gn r)

/-! ### One round of the build loop (lines 396-545) -/

/-- Lines 416-428: coerce Points (`fillna(0.0)`) and fall back to the
qualifying grid when the round's own grid column is entirely absent. -/
def normalize_round_df (fallback_grid : List (String × Int)) (df0 : List Row) :
    List Row :=
  let df1 := df0.map (fun r => { r with points := some (r.points.getD 0) })
  if (df1.all (fun r => r.grid_position = none) && !fallback_grid.isEmpty) = true then
    df1.map (fun r =>
      { r with grid_position :=
          (r.abbr.bind (alist_get fallback_grid)).map (fun i => (i : Rat)) })
  else df1

/-- Lines 430-441: the first row whose grid position is 1 earns a pole. -/
def pole_fold (rnd : Int) (acc : AccState) (df : List Row) : AccState :=
  match df.find? (fun r => r.grid_position == some 1) with
  | some pr =>
    match pr.abbr with
    | some code =>
      { acc with
        pole_counts := alist_upsert acc.pole_counts code 0 (fun n => n + 1),
        pole_rounds := alist_upsert acc.pole_rounds code [] (fun l => l ++ [rnd]) }
    | none => acc
  | none => acc

/-- Lines 510-514: DriverNumber → Abbreviation, later rows overwrite. -/
def build_num_to_abbr (df : List Row) : List (String × String) :=
  df.foldl
    (fun m r =>
      match r.driver_number, r.abbr with
      | some n, some a => alist_put m (toString n) a
      | _, _ => m) []

/-- Lines 515-533: load sprint rows, apply their points, record the round
as a sprint round when a non-empty sprint table was found. -/
def sprint_step (year rnd : Int) (sprint : Option (List Row))
    (results1 : List (String × DriverEntry)) (nta : List (String × String))
    (sprint_rounds : List Int) : List (String × DriverEntry) × List Int :=
  match load_sprint_results year sprint with
  | some sres =>
    if sres.isEmpty then (results1, sprint_rounds)
    else
      (apply_sprint_points sres results1 nta,
       if sprint_rounds.contains rnd then sprint_rounds else sprint_rounds ++ [rnd])
  | none => (results1, sprint_rounds)

def process_round (year : Int) (acc : AccState) (ri : RoundInput) : AccState :=
  if ri.rnd ≤ 0 then acc
  else
    match ri.race with
    | none => acc
    | some df0 =>
      if df0.isEmpty then acc
      else
        let df := normalize_round_df ri.fallback_grid df0
        let acc1 := pole_fold ri.rnd acc df
        let results1 := df.foldl (process_race_row ri.metadata) acc1.results
        let step2 := sprint_step year ri.rnd ri.sprint results1 (build_num_to_abbr df)
          acc1.sprint_rounds
        { acc1 with results := step2.1, sprint_rounds := step2.2 }

/-! ### Pole-only entries and finalisation (lines 547-621) -/

def empty_pole_entry (code : String) : DriverEntry :=
  { code := code, full_name := code, team := "", team_color := "" }

def apply_pole_entries (acc : AccState) : List (String × DriverEntry) :=
  acc.pole_counts.foldl
    (fun results kc =>
      alist_upsert results kc.1 (empty_pole_entry kc.1)
        (fun e =>
          { e with poles := kc.2, pole_rounds := (alist_get acc.pole_rounds kc.1).getD [] }))
    acc.results

structure DriverSummary where
  code : String
  full_name : String
  name : String
  team : String
  team_color : String
  grid_position : Option Int
  total_points : Rat
  wins : Nat
  podiums : Nat
  dnfs : Nat
  avg_finish : Option Rat
  poles : Nat
  pole_rounds : List Int
deriving DecidableEq, Repr

def summarize (pole_counts : List (String × Nat)) (code : String)
    (d : DriverEntry) : DriverSummary :=
  let avg : Option Rat :=
    if d.positions.isEmpty then none
    else some ((d.positions.foldl (fun s i => s + (i : Rat)) 0) / (d.positions.length : Rat))
  let fn := if d.full_name = "" then code else d.full_name
  { code := code, full_name := fn, name := fn, team := d.team,
    team_color := d.team_color, grid_position := d.grid_position,
    total_points := d.points, wins := d.wins, podiums := d.podiums,
    dnfs := d.dnfs, avg_finish := avg,
    poles := (alist_get pole_counts code).getD d.poles,
    pole_rounds := d.pole_rounds }

structure SeasonPayload where
  schema_version : Int
  season : Int
  drivers : List (String × DriverSummary)
  sprint_rounds : List Int
deriving DecidableEq, Repr

def int_le (a b : Int) : Bool := decide (a ≤ b)

def build_season_payload (year : Int) (detected : List Int)
    (rounds : List RoundInput) : SeasonPayload :=
  let acc := rounds.foldl (process_round year) { sprint_rounds := detected }
  let results := apply_pole_entries acc
  { schema_version := SCHEMA_VERSION,
    season := year,
    drivers := results.map (fun kv => (kv.1, summarize acc.pole_counts kv.1 kv.2)),
    sprint_rounds := stable_sort int_le acc.sprint_rounds.dedup }

/-- The whole endpoint body wrapped in `try/except`: a schedule-fetch
failure propagates to the blanket handler (HTTP 500); everything else
produces a payload. -/
def build_season (year : Int) (detected : List Int)
    (sched : Option (List RoundInput)) : Except Unit SeasonPayload :=
  match sched with
  | none => Except.error ()
  | some rounds => Except.ok (build_season_payload year detected rounds)

/-! ### Generic fold lemmas -/

theorem foldl_inv {α β : Type} (Q : β → Prop) (f : β → α → β)
    (h : ∀ b x, Q b → Q (f b x)) :
    ∀ (l : List α) (b : β), Q b → Q (l.foldl f b) := by
  intro l
  induction l with
  | nil => intro b hb; exact hb
  | cons x xs ih => intro b hb; exact ih (f b x) (h b x hb)

theorem foldl_filter_eq {α β : Type} (p : α → Bool) (f : β → α → β)
    (h : ∀ b x, p x = false → f b x = b) :
    ∀ (l : List α) (b : β), l.foldl f b = (l.filter p).foldl f b := by
  intro l
  induction l with
  | nil => intro b; rfl
  | cons x xs ih =>
    intro b
    by_cases hp : p x = true
    · simp [List.filter, hp, ih]
    · rw [Bool.not_eq_true] at hp
      simp [List.filter, hp, h b x hp, ih]

/-! ### A round contributes nothing when it is unusable -/

/-- A schedule round actually folded by the loop: a positive round number
and a reconciler outcome that is neither an exception nor empty. -/
def round_usable (ri : RoundInput) : Bool :=
  decide (0 < ri.rnd) && (match ri.race with
    | some df => !df.isEmpty
    | none => false)

theorem process_round_skip (year : Int) (acc : AccState) (ri : RoundInput)
    (h : round_usable ri = false) : process_round year acc ri = acc := by
  unfold round_usable at h
  by_cases h0 : ri.rnd ≤ 0
  · unfold process_round
    simp [h0]
  · have hpos : (0 : Int) < ri.rnd := by omega
    have hd : decide (0 < ri.rnd) = true := decide_eq_true hpos
    rw [hd, Bool.true_and] at h
    rcases hrace : ri.race with _ | df0
    · unfold process_round
      rw [if_neg h0, hrace]
    · rw [hrace] at h
      dsimp only at h
      have hemp : df0.isEmpty = true := by simpa using h
      unfold process_round
      rw [if_neg h0, hrace]
      simp [hemp]

/-! ### Counter invariants: wins ≤ podiums ≤ recorded positions -/

def counters_ok (d : DriverEntry) : Prop :=
  d.wins ≤ d.podiums ∧ d.podiums ≤ d.positions.length

theorem position_fold_ok (pos : Option Rat) (d : DriverEntry)
    (h : counters_ok d) : counters_ok (position_fold pos d) := by
  obtain ⟨h1, h2⟩ := h
  cases pos with
  | none => exact ⟨h1, h2⟩
  | some p =>
    unfold position_fold counters_ok
    dsimp only
    split_ifs <;> simp_all <;> omega

theorem race_row_update_ok (code fn team : String) (tc : Option String)
    (gn : Option Int) (r : Row) (d : DriverEntry) (h : counters_ok d) :
    counters_ok (race_row_update code fn team tc gn r d) := by
  unfold race_row_update
  dsimp only
  split_ifs <;> exact position_fold_ok _ _ h

theorem sprint_row_update_counters (code : String) (r : Row) (pts : Rat)
    (d : DriverEntry) :
    (sprint_row_update code r pts d).wins = d.wins
    ∧ (sprint_row_update code r pts d).podiums = d.podiums
    ∧ (sprint_row_update code r pts d).dnfs = d.dnfs
    ∧ (sprint_row_update code r pts d).positions = d.positions := by
  unfold sprint_row_update
  dsimp only
  split_ifs <;> simp

theorem sprint_row_update_points (code : String) (r : Row) (pts : Rat)
    (d : DriverEntry) :
    (sprint_row_update code r pts d).points = d.points + pts := by
  unfold sprint_row_update
  dsimp only
  split_ifs <;> simp

def results_inv (acc : List (String × DriverEntry)) : Prop :=
  ∀ kv ∈ acc, counters_ok kv.2

theorem race_default_entry_ok (code fn team : String) (tc : Option String)
    (gn : Option Int) : counters_ok (race_default_entry code fn team tc gn) := by
  simp [counters_ok, race_default_entry]

theorem process_race_row_inv (metadata : List (String × MetaEntry))
    (acc : List (String × DriverEntry)) (r : Row) (h : results_inv acc) :
    results_inv (process_race_row metadata acc r) := by
  unfold process_race_row
  rcases r.abbr with _ | code
  · exact h
  · dsimp only
    split_ifs
    · exact h
    all_goals
      exact alist_upsert_inv counters_ok acc code _ _ h
        (race_row_update_ok _ _ _ _ _ _ _ (race_default_entry_ok _ _ _ _ _))
        (fun a ha => race_row_update_ok _ _ _ _ _ _ _ ha)

theorem sprint_row_update_ok (code : String) (r : Row) (pts : Rat)
    (d : DriverEntry) (h : counters_ok d) :
    counters_ok (sprint_row_update code r pts d) := by
  obtain ⟨c1, c2, c3, c4⟩ := sprint_row_update_counters code r pts d
  exact ⟨by rw [c1, c2]; exact h.1, by rw [c2, c4]; exact h.2⟩

theorem sprint_default_entry_ok (code : String) (r : Row) :
    counters_ok (sprint_default_entry code r) := by
  simp [counters_ok, sprint_default_entry]

theorem sprint_code_case (acc : List (String × DriverEntry)) (r : Row)
    (pts : Rat) (h : results_inv acc) :
    ∀ c : Option String,
      results_inv (match c with
        | none => acc
        | some code =>
          if code = "" then acc
          else alist_upsert acc code (sprint_default_entry code r)
            (sprint_row_update code r pts)) := by
  intro c
  rcases c with _ | code
  · exact h
  · dsimp only
    split_ifs
    · exact h
    · exact alist_upsert_inv counters_ok acc code _ _ h
        (sprint_row_update_ok _ _ _ _ (sprint_default_entry_ok _ _))
        (fun a ha => sprint_row_update_ok _ _ _ _ ha)

theorem apply_sprint_row_inv (nta : List (String × String))
    (acc : List (String × DriverEntry)) (rp : Row × Rat) (h : results_inv acc) :
    results_inv (apply_sprint_row nta acc rp) := by
  unfold apply_sprint_row
  dsimp only
  by_cases hp : rp.2 ≤ 0
  · rw [if_pos hp]; exact h
  · rw [if_neg hp]; exact sprint_code_case acc rp.1 rp.2 h _

theorem apply_sprint_points_inv (sres : List (Row × Rat))
    (acc : List (String × DriverEntry)) (nta : List (String × String))
    (h : results_inv acc) : results_inv (apply_sprint_points sres acc nta) := by
  unfold apply_sprint_points
  exact foldl_inv results_inv (apply_sprint_row nta)
    (fun b x hb => apply_sprint_row_inv nta b x hb) sres acc h

theorem pole_fold_results (rnd : Int) (acc : AccState) (df : List Row) :
    (pole_fold rnd acc df).results = acc.results := by
  unfold pole_fold
  cases hf : List.find? (fun r => r.grid_position == some 1) df with
  | none => rfl
  | some pr =>
    dsimp only
    cases ha : pr.abbr <;> rfl

theorem pole_fold_inv (rnd : Int) (acc : AccState) (df : List Row)
    (h : results_inv acc.results) : results_inv (pole_fold rnd acc df).results := by
  rw [pole_fold_results]; exact h

theorem sprint_step_fst_inv (year rnd : Int) (sprint : Option (List Row))
    (results1 : List (String × DriverEntry)) (nta : List (String × String))
    (sr : List Int) (h : results_inv results1) :
    results_inv (sprint_step year rnd sprint results1 nta sr).1 := by
  unfold sprint_step
  cases hl : load_sprint_results year sprint with
  | none => exact h
  | some sres =>
    dsimp only
    split_ifs <;> first
      | exact h
      | exact apply_sprint_points_inv _ _ _ h

theorem process_round_inv (year : Int) (acc : AccState) (ri : RoundInput)
    (h : results_inv acc.results) :
    results_inv (process_round year acc ri).results := by
  unfold process_round
  by_cases h0 : ri.rnd ≤ 0
  · rw [if_pos h0]; exact h
  · rw [if_neg h0]
    rcases ri.race with _ | df0
    · exact h
    · dsimp only
      by_cases hemp : df0.isEmpty = true
      · rw [if_pos hemp]; exact h
      · rw [if_neg hemp]
        exact sprint_step_fst_inv year ri.rnd ri.sprint _ _ _
          (foldl_inv results_inv (process_race_row ri.metadata)
            (fun b x hb => process_race_row_inv ri.metadata b x hb) _ _
            (pole_fold_inv ri.rnd acc _ h))

theorem apply_pole_entries_inv (acc : AccState) (h : results_inv acc.results) :
    results_inv (apply_pole_entries acc) := by
  unfold apply_pole_entries
  apply foldl_inv results_inv _ _ acc.pole_counts acc.results h
  intro b kc hb
  exact alist_upsert_inv counters_ok b kc.1 _ _ hb
    (by simp [counters_ok, empty_pole_entry]) (fun a ha => ha)

/-- Claim C1: whenever the primary (fastf1) table is non-empty with a
strictly positive Points total, `load_results_strict` returns the primary
tag `"fastf1"` and the Points column of the returned rows is exactly the
primary table's Points column — enrichment from the secondary source and
the DNF column never alter Points. -/
theorem c1_primary_points_exact (f1 : List Row) (er : Option (List Row))
    (laps : List Lap) (da dn : List (String × Bool))
    (h1 : f1 ≠ []) (h2 : 0 < sum_points f1) :
    (load_results_strict (some f1) er laps da dn).1 = "fastf1"
    ∧ (load_results_strict (some f1) er laps da dn).2.map (fun r => r.points)
        = f1.map (fun r => r.points) := by
  have hp : has_points (some f1) = true := by
    unfold has_points
    rw [Bool.and_eq_true]
    constructor
    · cases f1 with
      | nil => exact absurd rfl h1
      | cons a l => rfl
    · exact decide_eq_true h2
  constructor
  · simp [load_results_strict, hp]
  · simp only [load_results_strict, hp, if_pos, if_true]
    rw [apply_dnf_points_map, enrich_points_map]
    rfl

def f1_w1 : List Row := [{ abbr := some "VER", position := some 1, points := some 25 }]

theorem c1_witness :
    (f1_w1 ≠ [] ∧ 0 < sum_points f1_w1)
    ∧ ((load_results_strict (some f1_w1) none [] [] []).1 = "fastf1"
      ∧ (load_results_strict (some f1_w1) none [] [] []).2.map (fun r => r.points)
          = f1_w1.map (fun r => r.points)) :=
  ⟨⟨by simp [f1_w1], by norm_num [sum_points, f1_w1]⟩,
   c1_primary_points_exact f1_w1 none [] [] []
     (by simp [f1_w1]) (by norm_num [sum_points, f1_w1])⟩

/-- Claim C3, amended: `load_results_strict` never raises; it signals the
all-sources-exhausted case by returning the sentinel `("derived_empty", [])`,
and it does so exactly when the primary has no positive Points total, the
secondary has no positive Points total, the positions-plus-secondary merge
branch does not apply, and there is no lap data — which can happen even
though a source yielded rows (rows with positions but the secondary
unavailable). -/
theorem c3_amended_failure_iff (f1 er : Option (List Row)) (laps : List Lap)
    (da dn : List (String × Bool)) :
    load_results_strict f1 er laps da dn = ("derived_empty", []) ↔
      (has_points f1 = false ∧ has_points er = false
        ∧ (has_positions f1 && er.isSome) = false ∧ laps = []) := by
  unfold load_results_strict
  by_cases h1 : has_points f1 = true
  · simp [h1, Prod.ext_iff]
  · rw [Bool.not_eq_true] at h1
    by_cases h2 : has_points er = true
    · simp [h1, h2, Prod.ext_iff]
    · rw [Bool.not_eq_true] at h2
      by_cases h3 : (has_positions f1 && er.isSome) = true
      · simp [h1, h2, h3, Prod.ext_iff]
      · rw [Bool.not_eq_true] at h3
        by_cases h4 : laps.isEmpty = true
        · have h4e : laps = [] := by simpa using h4
          simp [h1, h2, h3, h4, h4e]
        · have h4e : laps ≠ [] := by simpa using h4
          simp [h1, h2, h3, h4, h4e, Prod.ext_iff]

def f1_c3 : List Row := [{ abbr := some "VER", position := some 1, points := some 0 }]

/-- Claim C3 counterexample: the primary source yields a row (a position but
zero points), the secondary fetch failed and no lap data exists; the claim
says the reconciler fails only when no source yields any row and that it
fails by raising `NoResultsAvailable`, but the code returns the sentinel
result `("derived_empty", [])` here. -/
theorem c3_counterexample :
    f1_c3 ≠ []
    ∧ load_results_strict (some f1_c3) none [] [] [] = ("derived_empty", []) := by
  constructor
  · simp [f1_c3]
  · have h1 : has_points (some f1_c3) = false := by
      norm_num [has_points, sum_points, f1_c3]
    have h2 : has_points (none : Option (List Row)) = false := rfl
    have h3 : (has_positions (some f1_c3) && Option.isSome (none : Option (List Row))) = false := by
      simp
    simp [load_results_strict, h1, h2, h3]

def f1_c4 : List Row :=
  [{ abbr := some "VER", position := some 1, points := some 0 },
   { abbr := some "HAM", position := some 2, points := some 0 }]

def er_c4 : List Row :=
  [{ abbr := some "VER", points := some 0 },
   { abbr := some "HAM", points := some 0 }]

/-- Claim C4 counterexample: a round where both providers report zero total
points and the primary has finishing positions.  The claim says the output
points are then assigned by the fixed top-10 schedule (so position 1 gets
25); the code instead takes the primary-positions merge branch, fills the
points from the secondary (all zero) and returns tag `"f1+ergast_points"`
with 0 points at position 1. -/
theorem c4_counterexample :
    (sum_points f1_c4 = 0 ∧ has_positions (some f1_c4) = true ∧ sum_points er_c4 = 0)
    ∧ (load_results_strict (some f1_c4) (some er_c4) [] [] []).1 = "f1+ergast_points"
    ∧ (load_results_strict (some f1_c4) (some er_c4) [] [] []).2.map (fun r => r.points)
        = [some 0, some 0]
    ∧ (load_results_strict (some f1_c4) (some er_c4) [] [] []).2.map (fun r => r.position)
        = [some 1, some 2]
    ∧ top10_points 1 = 25 := by
  have h1 : has_points (some f1_c4) = false := by
    norm_num [has_points, sum_points, f1_c4]
  have h2 : has_points (some er_c4) = false := by
    norm_num [has_points, sum_points, er_c4]
  have h3 : (has_positions (some f1_c4) && Option.isSome (some er_c4)) = true := by
    decide
  have h4 : has_positions (some f1_c4) = true := by decide
  have hload : load_results_strict (some f1_c4) (some er_c4) [] [] []
      = ("f1+ergast_points",
          apply_dnf_column
            (enrich_from_source
              (enrich_from_source
                (f1_c4.flatMap (fun b =>
                  merge_points_rows b (er_c4.filter (fun s => s.abbr == b.abbr))))
                (some er_c4))
              (some f1_c4)) [] []) := by
    simp [load_results_strict, h1, h2, h3, h4]
  refine ⟨⟨by norm_num [sum_points, f1_c4], by decide, by norm_num [sum_points, er_c4]⟩,
    by rw [hload], ?_, ?_, by norm_num [top10_points]⟩
  · rw [hload]; decide
  · rw [hload]; decide

/-- Claim C4, amended: the fixed top-10 schedule applies in the lap-derived
branch — when neither provider has positive total points, the
positions-plus-secondary merge branch does not apply, and lap data exists,
the reconciler returns tag `"derived"` with the i-th row carrying
`top10_points (i+1)` points, and the points are monotonically non-increasing
along the returned classification order. -/
theorem c4_amended_derived_schedule (f1 er : Option (List Row)) (laps : List Lap)
    (da dn : List (String × Bool))
    (h1 : has_points f1 = false) (h2 : has_points er = false)
    (h3 : (has_positions f1 && er.isSome) = false) (h4 : laps ≠ []) :
    (load_results_strict f1 er laps da dn).1 = "derived"
    ∧ (load_results_strict f1 er laps da dn).2.map (fun r => r.points)
        = (List.range (stable_sort derived_le (last_laps laps)).length).map
            (fun i => some (top10_points (i + 1)))
    ∧ List.Pairwise (fun a b => b ≤ a)
        ((load_results_strict f1 er laps da dn).2.map (fun r => r.points.getD 0)) := by
  have h4e : laps.isEmpty = false := by simpa using h4
  have hrows : load_results_strict f1 er laps da dn
      = ("derived", apply_dnf_column
          (enrich_from_source (enrich_from_source (derived_rows laps) er) f1) da dn) := by
    simp [load_results_strict, h1, h2, h3, h4e]
  have hpts : (load_results_strict f1 er laps da dn).2.map (fun r => r.points)
      = (List.range (stable_sort derived_le (last_laps laps)).length).map
          (fun i => some (top10_points (i + 1))) := by
    rw [hrows]
    show (apply_dnf_column _ da dn).map (fun r => r.points) = _
    rw [apply_dnf_points_map, enrich_points_map, enrich_points_map, derived_rows_points]
  refine ⟨by rw [hrows], hpts, ?_⟩
  have hgd : (load_results_strict f1 er laps da dn).2.map (fun r => r.points.getD 0)
      = ((load_results_strict f1 er laps da dn).2.map (fun r => r.points)).map
          (fun o : Option Rat => o.getD 0) := by
    rw [List.map_map]; rfl
  rw [hgd, hpts, List.map_map]
  show List.Pairwise _ ((List.range _).map (fun i => top10_points (i + 1)))
  exact pairwise_top10 _

def laps_w4 : List Lap :=
  [{ driver := "VER", lap_number := 1, position := some 1 },
   { driver := "HAM", lap_number := 1, position := some 2 }]

theorem c4_witness :
    (has_points (none : Option (List Row)) = false
      ∧ has_points (none : Option (List Row)) = false
      ∧ (has_positions (none : Option (List Row)) && Option.isSome (none : Option (List Row))) = false
      ∧ laps_w4 ≠ [])
    ∧ ((load_results_strict none none laps_w4 [] []).1 = "derived"
      ∧ (load_results_strict none none laps_w4 [] []).2.map (fun r => r.points)
          = (List.range (stable_sort derived_le (last_laps laps_w4)).length).map
              (fun i => some (top10_points (i + 1)))
      ∧ List.Pairwise (fun a b => b ≤ a)
          ((load_results_strict none none laps_w4 [] []).2.map (fun r => r.points.getD 0))) :=
  ⟨⟨rfl, rfl, rfl, by simp [laps_w4]⟩,
   c4_amended_derived_schedule none none laps_w4 [] [] rfl rfl rfl (by simp [laps_w4])⟩

/-- Claim C2 evidence: with the guard exactly as written (membership test and
insert are separate steps with no lock), there is an interleaving of two
concurrent cold requests for the same year in which both observe the key as
not building and both invoke the build logic (`builds = 2`), while the fully
serialised order performs only one build. -/
theorem c2_stampede_race :
    (stampede_run [false, true, false, false, true, true]).builds = 2
    ∧ (stampede_run [false, false, false, true, true, true]).builds = 1 := by
  constructor <;> rfl

/-- Claim C5: the season build surfaces a failure only when the schedule
fetch fails; every per-round reconciliation failure (exception or empty
result) is absorbed — the round is skipped and the season is still built
from exactly the rounds that succeeded. -/
theorem c5_season_failure_surface (year : Int) (detected : List Int)
    (rounds : List RoundInput) :
    (∀ sched : Option (List RoundInput),
      (∃ e, build_season year detected sched = Except.error e) ↔ sched = none)
    ∧ build_season year detected (some rounds)
        = Except.ok (build_season_payload year detected rounds)
    ∧ build_season year detected (some rounds)
        = build_season year detected (some (rounds.filter round_usable)) := by
  refine ⟨?_, rfl, ?_⟩
  · intro sched
    cases sched with
    | none => exact ⟨fun _ => rfl, fun _ => ⟨(), rfl⟩⟩
    | some rs =>
      constructor
      · rintro ⟨e, he⟩
        exact absurd he (by simp [build_season])
      · intro hc
        exact absurd hc (by simp)
  · unfold build_season build_season_payload
    dsimp only
    rw [foldl_filter_eq round_usable (process_round year)
      (fun b x hx => process_round_skip year b x hx) rounds]

/-- Claim C10: in every driver entry of the season accumulator (and hence in
every driver summary of the built SeasonPayload), wins ≤ podiums and
podiums ≤ the number of recorded finishing positions; a finishing position
of 1 increments both counters, a position ≤ 3 increments the podium
counter, and a row without a numeric finishing position leaves the
counters and the positions list unchanged. -/
theorem c10_counter_invariants (year : Int) (detected : List Int)
    (rounds : List RoundInput) :
    (∀ kv ∈ apply_pole_entries
        (rounds.foldl (process_round year) { sprint_rounds := detected }),
      kv.2.wins ≤ kv.2.podiums ∧ kv.2.podiums ≤ kv.2.positions.length)
    ∧ (∀ kv ∈ (build_season_payload year detected rounds).drivers,
        kv.2.wins ≤ kv.2.podiums)
    ∧ (∀ (code fn team : String) (tc : Option String) (gn : Option Int)
        (r : Row) (d : DriverEntry), r.position = none →
          (race_row_update code fn team tc gn r d).wins = d.wins
          ∧ (race_row_update code fn team tc gn r d).podiums = d.podiums
          ∧ (race_row_update code fn team tc gn r d).positions = d.positions)
    ∧ (∀ (code fn team : String) (tc : Option String) (gn : Option Int)
        (r : Row) (d : DriverEntry) (p : Rat),
          r.position = some p → py_int p = 1 →
          (race_row_update code fn team tc gn r d).wins = d.wins + 1
          ∧ (race_row_update code fn team tc gn r d).podiums = d.podiums + 1)
    ∧ (∀ (code fn team : String) (tc : Option String) (gn : Option Int)
        (r : Row) (d : DriverEntry) (p : Rat),
          r.position = some p → py_int p ≤ 3 →
          (race_row_update code fn team tc gn r d).podiums = d.podiums + 1) := by
  have hacc : results_inv
      ((rounds.foldl (process_round year) { sprint_rounds := detected }).results) := by
    apply foldl_inv (fun a : AccState => results_inv a.results) (process_round year)
      (fun b x hb => process_round_inv year b x hb) rounds
    intro kv hkv
    simp at hkv
  have hpoles := apply_pole_entries_inv _ hacc
  refine ⟨hpoles, ?_, ?_, ?_, ?_⟩
  · intro kv hkv
    unfold build_season_payload at hkv
    dsimp only at hkv
    obtain ⟨kv0, hkv0, rfl⟩ := List.mem_map.mp hkv
    exact (hpoles kv0 hkv0).1
  · intro code fn team tc gn r d hpos
    unfold race_row_update position_fold
    rw [hpos]
    dsimp only
    split_ifs <;> exact ⟨rfl, rfl, rfl⟩
  · intro code fn team tc gn r d p hpos h1
    unfold race_row_update position_fold
    rw [hpos]
    dsimp only
    rw [if_pos h1, if_pos (show py_int p ≤ 3 by rw [h1]; norm_num)]
    split_ifs <;> exact ⟨rfl, rfl⟩
  · intro code fn team tc gn r d p hpos h3
    unfold race_row_update position_fold
    rw [hpos]
    dsimp only
    by_cases h1 : py_int p = 1
    · rw [if_pos h1, if_pos h3]
      split_ifs <;> rfl
    · rw [if_neg h1, if_pos h3]
      split_ifs <;> rfl

def r_w10 : Row := { abbr := some "VER" }

def d_w10 : DriverEntry :=
  { code := "VER", points := 5, wins := 1, podiums := 1, positions := [1] }

theorem c10_witness :
    r_w10.position = none
    ∧ ((race_row_update "VER" "Max" "Red Bull" none none r_w10 d_w10).wins = d_w10.wins
      ∧ (race_row_update "VER" "Max" "Red Bull" none none r_w10 d_w10).podiums = d_w10.podiums
      ∧ (race_row_update "VER" "Max" "Red Bull" none none r_w10 d_w10).positions
          = d_w10.positions) :=
  ⟨rfl, (c10_counter_invariants 2024 [] []).2.2.1 "VER" "Max" "Red Bull"
    none none r_w10 d_w10 rfl⟩

/-- Claim C8: when the sprint session reports zero total points and the year
is within the 3-2-1 threshold, the fallback schedule is applied to sprint
positions (position 1 earns 3), and applying the sprint results to the
accumulator changes only the driver's cumulative points: LEC's points grow
by exactly 3 while LEC's wins, podiums, DNF count and recorded finishing
positions are unchanged. -/
theorem c8_sprint_fallback (year : Int) (r : Row)
    (acc : List (String × DriverEntry)) (e : DriverEntry)
    (nta : List (String × String))
    (hy : year ≤ 2021) (hab : r.abbr = some "LEC") (hpos : r.position = some 1)
    (hpts : r.points.getD 0 = 0) (he : alist_get acc "LEC" = some e) :
    load_sprint_results year (some [r]) = some [({ r with points := some 0 }, 3)]
    ∧ (∃ e2,
        alist_get (apply_sprint_points [({ r with points := some 0 }, 3)] acc nta) "LEC"
          = some e2
        ∧ e2.points = e.points + 3 ∧ e2.wins = e.wins ∧ e2.podiums = e.podiums
        ∧ e2.dnfs = e.dnfs ∧ e2.positions = e.positions) := by
  constructor
  · unfold load_sprint_results
    simp only [List.isEmpty_cons, Bool.false_eq_true, if_false, List.map_cons,
      List.map_nil, hpts]
    have hsum : sum_points [{ r with points := some 0 }] = 0 := by
      simp [sum_points]
    rw [hsum]
    simp [hpos, sprint_map, hy]
  · have happ : alist_get
        (apply_sprint_points [({ r with points := some 0 }, 3)] acc nta) "LEC"
        = some (sprint_row_update "LEC" { r with points := some 0 } 3 e) := by
      unfold apply_sprint_points
      simp only [List.foldl_cons, List.foldl_nil]
      unfold apply_sprint_row
      dsimp only
      rw [if_neg (by norm_num : ¬ (3 : Rat) ≤ 0)]
      simp only [hab]
      simp only [show ("LEC" = "") = False by simp, if_false]
      rw [alist_get_upsert_same, he]
      rfl
    obtain ⟨c1, c2, c3, c4⟩ :=
      sprint_row_update_counters "LEC" { r with points := some 0 } 3 e
    exact ⟨_, happ, sprint_row_update_points "LEC" _ 3 e, c1, c2, c3, c4⟩

def r_w8 : Row := { abbr := some "LEC", position := some 1, points := some 0 }

def e_w8 : DriverEntry :=
  { code := "LEC", full_name := "Charles Leclerc", team := "Ferrari",
    points := 10, wins := 1, podiums := 2, positions := [1, 2] }

def acc_w8 : List (String × DriverEntry) := [("LEC", e_w8)]

theorem c8_witness :
    ((2021 : Int) ≤ 2021 ∧ r_w8.abbr = some "LEC" ∧ r_w8.position = some 1
      ∧ r_w8.points.getD 0 = 0 ∧ alist_get acc_w8 "LEC" = some e_w8)
    ∧ (load_sprint_results 2021 (some [r_w8])
        = some [({ r_w8 with points := some 0 }, 3)]
      ∧ (∃ e2,
          alist_get (apply_sprint_points [({ r_w8 with points := some 0 }, 3)] acc_w8 []) "LEC"
            = some e2
          ∧ e2.points = e_w8.points + 3 ∧ e2.wins = e_w8.wins ∧ e2.podiums = e_w8.podiums
          ∧ e2.dnfs = e_w8.dnfs ∧ e2.positions = e_w8.positions)) :=
  ⟨⟨by decide, rfl, rfl, rfl, by simp [acc_w8, alist_get]⟩,
   c8_sprint_fallback 2021 r_w8 acc_w8 e_w8 [] (by decide) rfl rfl rfl
     (by simp [acc_w8, alist_get])⟩

/-! ## Tiered cache read path (`compare.py`, lines 294-307 and 361-626)

State: the in-memory tier `_MEM_SEASON` (year ↦ payload + timestamp), the
persisted tier (year ↦ stored payload, arbitrary schema version), and the
`_BUILDING` flag for the year.  `serve_season` is one request through the
endpoint's cache logic; the build itself is the `build_season` model. -/

structure MemEntry where
  payload : SeasonPayload
  ts : Int
deriving DecidableEq, Repr

/-- `_mem_get` (lines 294-304): a hit past its TTL or carrying a stale
schema version is popped and reported as a miss. -/
def mem_get (mem : List (Int × MemEntry)) (year now ttl : Int) :
    Option SeasonPayload × List (Int × MemEntry) :=
  match alist_get mem year with
  | none => (none, mem)
  | some entry =>
    if ttl < now - entry.ts then (none, alist_remove mem year)
    else if entry.payload.schema_version ≠ SCHEMA_VERSION then (none, alist_remove mem year)
    else (some entry.payload, mem)

inductive Served where
  | memory (p : SeasonPayload)
  | disk (p : SeasonPayload)
  | building_resp
  | built (p : SeasonPayload)
  | failed
deriving DecidableEq, Repr

def served_payload : Served → Option SeasonPayload
  | .memory p => some p
  | .disk p => some p
  | .built p => some p
  | .building_resp => none
  | .failed => none

structure ServeOut where
  result : Served
  mem : List (Int × MemEntry)
  disk : List (Int × SeasonPayload)
deriving DecidableEq, Repr

/-- Lines 361-626: memory tier (skipped on refresh), stampede guard
(202 building response), disk tier (served only with current schema version
and a non-empty drivers dict, then promoted to memory), rebuild (saved to
disk and memory together); a build exception maps to the HTTP 500 path. -/
def serve_season (year now ttl : Int) (refresh building : Bool)
    (mem : List (Int × MemEntry)) (disk : List (Int × SeasonPayload))
    (detected : List Int) (sched : Option (List RoundInput)) : ServeOut :=
  match (if refresh then ((none : Option SeasonPayload), mem)
         else mem_get mem year now ttl) with
  | (some p, mem1) => ⟨.memory p, mem1, disk⟩
  | (none, mem1) =>
    if (building && !refresh) = true then ⟨.building_resp, mem1, disk⟩
    else
      match (if refresh then none
             else match alist_get disk year with
               | some c =>
                 if c.schema_version = SCHEMA_VERSION ∧ c.drivers ≠ [] then some c else none
               | none => none) with
      | some c => ⟨.disk c, alist_put mem1 year ⟨c, now⟩, disk⟩
      | none =>
        match build_season year detected sched with
        | Except.error _ => ⟨.failed, mem1, disk⟩
        | Except.ok p => ⟨.built p, alist_put mem1 year ⟨p, now⟩, alist_put disk year p⟩

theorem mem_get_version (mem : List (Int × MemEntry)) (year now ttl : Int)
    (q : SeasonPayload) (mem1 : List (Int × MemEntry))
    (h : mem_get mem year now ttl = (some q, mem1)) :
    q.schema_version = SCHEMA_VERSION := by
  unfold mem_get at h
  cases he : alist_get mem year with
  | none =>
    rw [he] at h
    exact absurd h (by simp)
  | some entry =>
    rw [he] at h
    dsimp only at h
    split_ifs at h with h1 h2
    · exact absurd h (by simp)
    · exact absurd h (by simp)
    · rw [Prod.mk.injEq] at h
      obtain ⟨hq, -⟩ := h
      rw [← Option.some_inj.mp hq]
      by_contra hne
      exact h2 hne

/-- Claim C6: a cache entry whose schema version differs from the current
SCHEMA_VERSION is never served.  A stale memory entry is popped (discarded)
and reported as a miss; a stale disk entry is not served and the read path
proceeds to a rebuild which replaces it wholesale; and every payload a
request returns (other than the building indicator and the failure path)
carries the current schema version. -/
theorem c6_schema_version_guard (year now ttl : Int) (refresh building : Bool)
    (mem : List (Int × MemEntry)) (disk : List (Int × SeasonPayload))
    (detected : List Int) (sched : Option (List RoundInput)) :
    (∀ p, served_payload
        (serve_season year now ttl refresh building mem disk detected sched).result
          = some p →
      p.schema_version = SCHEMA_VERSION)
    ∧ (∀ e, alist_get mem year = some e →
        e.payload.schema_version ≠ SCHEMA_VERSION →
        mem_get mem year now ttl = (none, alist_remove mem year))
    ∧ (∀ c, refresh = false → building = false →
        (mem_get mem year now ttl).1 = none →
        alist_get disk year = some c →
        c.schema_version ≠ SCHEMA_VERSION →
        (serve_season year now ttl refresh building mem disk detected sched).result
          = (match build_season year detected sched with
             | Except.error _ => Served.failed
             | Except.ok p => Served.built p)) := by
  refine ⟨?_, ?_, ?_⟩
  · intro p hp
    unfold serve_season at hp
    rcases hmg : (if refresh then ((none : Option SeasonPayload), mem)
        else mem_get mem year now ttl) with ⟨o, mem1⟩
    rw [hmg] at hp
    cases o with
    | some q =>
      dsimp only [served_payload] at hp
      have hpq : p = q := (Option.some_inj.mp hp).symm
      subst hpq
      by_cases hr : refresh = true
      · rw [hr] at hmg
        simp at hmg
      · rw [Bool.not_eq_true] at hr
        rw [hr] at hmg
        simp only [Bool.false_eq_true, if_false] at hmg
        exact mem_get_version mem year now ttl p mem1 hmg
    | none =>
      dsimp only at hp
      by_cases hb : (building && !refresh) = true
      · rw [if_pos hb] at hp
        simp [served_payload] at hp
      · rw [if_neg hb] at hp
        rcases hdh : (if refresh then none
            else match alist_get disk year with
              | some c =>
                if c.schema_version = SCHEMA_VERSION ∧ c.drivers ≠ [] then some c else none
              | none => none) with _ | c
        · rw [hdh] at hp
          dsimp only at hp
          cases hbs : build_season year detected sched with
          | error e =>
            rw [hbs] at hp
            simp [served_payload] at hp
          | ok q =>
            rw [hbs] at hp
            dsimp only [served_payload] at hp
            have hpq : p = q := (Option.some_inj.mp hp).symm
            subst hpq
            cases sched with
            | none => exact absurd hbs (by simp [build_season])
            | some rs =>
              have hq : build_season_payload year detected rs = p := by
                have := hbs
                simp only [build_season] at this
                exact Except.ok.inj this
              rw [← hq]
              rfl
        · rw [hdh] at hp
          dsimp only [served_payload] at hp
          have hpc : p = c := (Option.some_inj.mp hp).symm
          subst hpc
          by_cases hr : refresh = true
          · rw [hr] at hdh
            simp at hdh
          · rw [Bool.not_eq_true] at hr
            rw [hr] at hdh
            simp only [Bool.false_eq_true, if_false] at hdh
            cases hd : alist_get disk year with
            | none =>
              rw [hd] at hdh
              simp at hdh
            | some c0 =>
              rw [hd] at hdh
              dsimp only at hdh
              split_ifs at hdh with hcond
              have hc0 : c0 = p := Option.some_inj.mp hdh
              rw [← hc0]
              exact hcond.1
  · intro e he hv
    unfold mem_get
    rw [he]
    dsimp only
    by_cases h1 : ttl < now - e.ts
    · rw [if_pos h1]
    · rw [if_neg h1, if_pos hv]
  · intro c hr hb hm hd hv
    unfold serve_season
    rw [hr]
    simp only [Bool.false_eq_true, if_false]
    rcases hmg : mem_get mem year now ttl with ⟨o, mem1⟩
    rw [hmg] at hm
    dsimp only at hm
    subst hm
    dsimp only
    rw [hb]
    simp only [Bool.false_and, Bool.false_eq_true, if_false]
    rw [hd]
    dsimp only
    have hcond : ¬ (c.schema_version = SCHEMA_VERSION ∧ c.drivers ≠ []) := by
      rintro ⟨h1, -⟩
      exact hv h1
    rw [if_neg hcond]
    cases hbs : build_season year detected sched <;> rfl

def p_w6 : SeasonPayload :=
  { schema_version := 9, season := 2024, drivers := [], sprint_rounds := [] }

def mem_w6 : List (Int × MemEntry) := [(2024, ⟨p_w6, 0⟩)]

theorem c6_witness :
    (alist_get mem_w6 2024 = some ⟨p_w6, 0⟩
      ∧ p_w6.schema_version ≠ SCHEMA_VERSION)
    ∧ mem_get mem_w6 2024 1 100 = (none, alist_remove mem_w6 2024) :=
  ⟨⟨by simp [mem_w6, alist_get], by decide⟩,
   (c6_schema_version_guard 2024 1 100 false false mem_w6 [] [] none).2.1
     ⟨p_w6, 0⟩ (by simp [mem_w6, alist_get]) (by decide)⟩

/-! ## Persisted season store (`cache_utils.py`)

`save_season` serialises the payload dict with `json.dumps`, writes to a
temp file and atomically replaces `season_<year>.json`; `load_season` parses
the file back with `json.loads`.  The file system is a map from year to the
stored JSON document; `encode_payload` / `decode_payload` model the
serialisation of the payload dict into the JSON universe. -/

inductive Json where
  | null
  | jbool (b : Bool)
  | jnum (q : Rat)
  | jstr (s : String)
  | jarr (xs : List Json)
  | jobj (fields : List (String × Json))

def enc_nat (n : Nat) : Json := .jnum (n : Rat)

def enc_int (i : Int) : Json := .jnum (i : Rat)

def enc_opt_int : Option Int → Json
  | none => .null
  | some i => enc_int i

def enc_opt_rat : Option Rat → Json
  | none => .null
  | some q => .jnum q

def dec_nat : Json → Option Nat
  | .jnum q => if q.den = 1 ∧ 0 ≤ q.num then some q.num.toNat else none
  | _ => none

def dec_int : Json → Option Int
  | .jnum q => if q.den = 1 then some q.num else none
  | _ => none

def dec_rat : Json → Option Rat
  | .jnum q => some q
  | _ => none

def dec_str : Json → Option String
  | .jstr s => some s
  | _ => none

def dec_opt_int : Json → Option (Option Int)
  | .null => some none
  | .jnum q => if q.den = 1 then some (some q.num) else none
  | _ => none

def dec_opt_rat : Json → Option (Option Rat)
  | .null => some none
  | .jnum q => some (some q)
  | _ => none

def dec_list {α : Type} (f : Json → Option α) : List Json → Option (List α)
  | [] => some []
  | j :: rest =>
    match f j, dec_list f rest with
    | some a, some as => some (a :: as)
    | _, _ => none

def encode_summary (s : DriverSummary) : Json :=
  .jobj [("code", .jstr s.code), ("full_name", .jstr s.full_name),
    ("name", .jstr s.name), ("team", .jstr s.team),
    ("team_color", .jstr s.team_color),
    ("grid_position", enc_opt_int s.grid_position),
    ("total_points", .jnum s.total_points), ("wins", enc_nat s.wins),
    ("podiums", enc_nat s.podiums), ("dnfs", enc_nat s.dnfs),
    ("avg_finish", enc_opt_rat s.avg_finish), ("poles", enc_nat s.poles),
    ("pole_rounds", .jarr (s.pole_rounds.map enc_int))]

def dec_int_arr : Json → Option (List Int)
  | .jarr xs => dec_list dec_int xs
  | _ => none

def decode_summary : Json → Option DriverSummary
  | .jobj [(k1, jc), (k2, jfn), (k3, jn), (k4, jt), (k5, jtc), (k6, jgp),
      (k7, jtp), (k8, jw), (k9, jpo), (k10, jdn), (k11, jaf), (k12, jpl),
      (k13, jpr)] =>
    if k1 = "code" ∧ k2 = "full_name" ∧ k3 = "name" ∧ k4 = "team"
        ∧ k5 = "team_color" ∧ k6 = "grid_position" ∧ k7 = "total_points"
        ∧ k8 = "wins" ∧ k9 = "podiums" ∧ k10 = "dnfs" ∧ k11 = "avg_finish"
        ∧ k12 = "poles" ∧ k13 = "pole_rounds" then
      match dec_str jc, dec_str jfn, dec_str jn, dec_str jt, dec_str jtc,
          dec_opt_int jgp, dec_rat jtp, dec_nat jw, dec_nat jpo, dec_nat jdn,
          dec_opt_rat jaf, dec_nat jpl, dec_int_arr jpr with
      | some c, some fn, some n, some t, some tc, some gp, some tp, some w,
          some po, some dn, some af, some pl, some pr =>
        some ⟨c, fn, n, t, tc, gp, tp, w, po, dn, af, pl, pr⟩
      | _, _, _, _, _, _, _, _, _, _, _, _, _ => none
    else none
  | _ => none

def encode_payload (p : SeasonPayload) : Json :=
  .jobj [("schema_version", enc_int p.schema_version),
    ("season", enc_int p.season),
    ("drivers", .jobj (p.drivers.map (fun kv => (kv.1, encode_summary kv.2)))),
    ("sprint_rounds", .jarr (p.sprint_rounds.map enc_int))]

def decode_drivers : List (String × Json) → Option (List (String × DriverSummary))
  | [] => some []
  | (k, j) :: rest =>
    match decode_summary j, decode_drivers rest with
    | some s, some others => some ((k, s) :: others)
    | _, _ => none

def decode_payload : Json → Option SeasonPayload
  | .jobj [(k1, jsv), (k2, jse), (k3, .jobj jds), (k4, .jarr jsr)] =>
    if k1 = "schema_version" ∧ k2 = "season" ∧ k3 = "drivers"
        ∧ k4 = "sprint_rounds" then
      match dec_int jsv, dec_int jse, decode_drivers jds, dec_list dec_int jsr with
      | some sv, some se, some ds, some sr => some ⟨sv, se, ds, sr⟩
      | _, _, _, _ => none
    else none
  | _ => none

/-- `save_season`: write-to-temp plus atomic replace is, at the store level,
an upsert of the year's document. -/
def save_season (store : List (Int × Json)) (year : Int) (payload : Json) :
    List (Int × Json) :=
  alist_put store year payload

/-- `load_season`: read and parse the year's document if it exists. -/
def load_season (store : List (Int × Json)) (year : Int) : Option Json :=
  alist_get store year

theorem alist_get_put_same {κ α : Type} [DecidableEq κ]
    (l : List (κ × α)) (k : κ) (v : α) :
    alist_get (alist_put l k v) k = some v := by
  induction l with
  | nil => simp [alist_get, alist_put]
  | cons hd tl ih =>
    obtain ⟨k0, v0⟩ := hd
    by_cases hk : k0 = k
    · subst hk; simp [alist_get, alist_put]
    · simp [alist_get, alist_put, hk, ih]

theorem dec_int_enc (i : Int) : dec_int (enc_int i) = some i := by
  simp [dec_int, enc_int]

theorem dec_nat_enc (n : Nat) : dec_nat (enc_nat n) = some n := by
  simp [dec_nat, enc_nat]

theorem dec_rat_enc (q : Rat) : dec_rat (.jnum q) = some q := rfl

theorem dec_opt_int_enc (o : Option Int) : dec_opt_int (enc_opt_int o) = some o := by
  cases o with
  | none => rfl
  | some i => simp [dec_opt_int, enc_opt_int, enc_int]

theorem dec_opt_rat_enc (o : Option Rat) : dec_opt_rat (enc_opt_rat o) = some o := by
  cases o <;> rfl

theorem dec_list_enc_int (xs : List Int) :
    dec_list dec_int (xs.map enc_int) = some xs := by
  induction xs with
  | nil => rfl
  | cons x rest ih => simp [dec_list, dec_int_enc, ih]

theorem dec_int_arr_enc (xs : List Int) :
    dec_int_arr (.jarr (xs.map enc_int)) = some xs := by
  simp [dec_int_arr, dec_list_enc_int]

theorem decode_summary_enc (s : DriverSummary) :
    decode_summary (encode_summary s) = some s := by
  obtain ⟨c, fn, n, t, tc, gp, tp, w, po, dn, af, pl, pr⟩ := s
  simp [encode_summary, decode_summary, dec_str, dec_rat, dec_nat_enc,
    dec_opt_int_enc, dec_opt_rat_enc, dec_int_arr_enc]

theorem decode_drivers_enc (ds : List (String × DriverSummary)) :
    decode_drivers (ds.map (fun kv => (kv.1, encode_summary kv.2))) = some ds := by
  induction ds with
  | nil => rfl
  | cons hd rest ih =>
    obtain ⟨k, s⟩ := hd
    simp [decode_drivers, decode_summary_enc, ih]

theorem decode_payload_enc (p : SeasonPayload) :
    decode_payload (encode_payload p) = some p := by
  obtain ⟨sv, se, ds, sr⟩ := p
  simp [encode_payload, decode_payload, dec_int_enc, decode_drivers_enc,
    dec_list_enc_int]

/-- Claim C9: a SeasonPayload written to the persisted tier and reloaded
for the same year (with a matching schema version) yields back the stored
document, and decoding it reproduces the identical payload — in particular
the identical mapping from driver code to summary record. -/
theorem c9_round_trip (store : List (Int × Json)) (year : Int)
    (p : SeasonPayload) (_hsv : p.schema_version = SCHEMA_VERSION) :
    load_season (save_season store year (encode_payload p)) year
      = some (encode_payload p)
    ∧ (load_season (save_season store year (encode_payload p)) year).bind decode_payload
        = some p
    ∧ (decode_payload (encode_payload p)).map SeasonPayload.drivers = some p.drivers := by
  have h1 : load_season (save_season store year (encode_payload p)) year
      = some (encode_payload p) := alist_get_put_same store year (encode_payload p)
  refine ⟨h1, ?_, ?_⟩
  · rw [h1]
    simp [decode_payload_enc]
  · rw [decode_payload_enc]
    rfl

def s_w9 : DriverSummary :=
  { code := "VER", full_name := "Max Verstappen", name := "Max Verstappen",
    team := "Red Bull", team_color := "#3671C6", grid_position := some 1,
    total_points := 25, wins := 1, podiums := 1, dnfs := 0,
    avg_finish := some 1, poles := 1, pole_rounds := [1] }

def p_w9 : SeasonPayload :=
  { schema_version := 10, season := 2024, drivers := [("VER", s_w9)],
    sprint_rounds := [1] }

theorem c9_witness :
    p_w9.schema_version = SCHEMA_VERSION
    ∧ (load_season (save_season [] 2024 (encode_payload p_w9)) 2024
        = some (encode_payload p_w9)
      ∧ (load_season (save_season [] 2024 (encode_payload p_w9)) 2024).bind decode_payload
          = some p_w9
      ∧ (decode_payload (encode_payload p_w9)).map SeasonPayload.drivers
          = some p_w9.drivers) :=
  ⟨rfl, c9_round_trip [] 2024 p_w9 rfl⟩
